import Mathlib

/-!
Shallow embedding of the deterministic analytics engine in
`app/services/pandas_analytics_service.py` (class `PandasAnalyticsService`),
together with theorems checking the claims of the specification about it.

Modelling conventions:

* A cell of an uploaded table is a string, a number, or null.  Rationals
  stand in for Python floats; every value appearing in the repository
  fixtures is a finite decimal, hence exact in `ℚ`.  IEEE nan/inf
  values are not modelled (no claim exercises them).
* A row is an association list from column names to cells.  A pandas
  DataFrame built from `full_data` is represented by the row list
  itself; a column exists when some row carries the key, and a row
  missing a key behaves as a NaN cell (coerces to `0` after
  `fillna(0)`, prints as the string nan under `astype(str)`).
* The dollar/comma strip (regex class of the two characters dollar and
  comma) composed with `pd.to_numeric` under coerce errors and
  `fillna(0)` is modelled per cell by `toNumeric`.
* The float grammar accepted by Python float conversion and by
  `pd.to_numeric` is modelled by `parseFloat?`: optional surrounding
  whitespace, optional sign, decimal digits with optional fraction and
  optional exponent.  The names inf/nan and digit-group underscores are
  not modelled (no claim exercises them).
* `pd.merge` with outer join on the Month column and `fillna(0)`,
  followed by `sort_values` on the parsed date key, is modelled by
  `mergeSorted`.  The source sorts with the pandas default (unstable)
  quicksort whose order on equal keys is unspecified; insertion sort is
  used here, and every claim depends only on sortedness and on the
  multiset of rows.
* Chart styling fields (colors, dashes, fill, tension) and the fixed
  three-line keyDrivers explanation template are presentation-only
  strings and are omitted from the embedded result records; every claim
  is about the numeric/label payload.
-/

namespace PandasAnalyticsService

/-- A scalar value held in one cell of an uploaded table: a string, a
number (Python float/int, modelled as `ℚ`), or null. -/
inductive Cell where
  | str (s : String)
  | num (q : ℚ)
  | null
deriving DecidableEq

/-- A row-record of an uploaded document: a mapping from column names to
cells, as produced by upstream CSV parsing. -/
abbrev Row := List (String × Cell)

/-- The fields of `CSVDocumentDetail` (app/models/csv_document.py) read
by the analytics engine.  `full_data := []` models both a missing
(the Python None) and an empty row list: both are falsy in the source
`if doc and doc.full_data:` guards. -/
structure CSVDocumentDetail where
  filename : String
  full_data : List Row
deriving DecidableEq

/-- Boolean test that `pre` is a leading segment of the second list. -/
def leadsIn : List Char → List Char → Bool
  | [], _ => true
  | _ :: _, [] => false
  | a :: as, b :: bs => a == b && leadsIn as bs

/-- Python substring containment (needle in hay) on character lists. -/
def occursIn (needle : List Char) : List Char → Bool
  | [] => needle.isEmpty
  | c :: t => leadsIn needle (c :: t) || occursIn needle t

/-- ASCII lowercase of one character (the Python lower method on the
ASCII names and labels used by the engine). -/
def lowerChar (c : Char) : Char :=
  if 'A' ≤ c && c ≤ 'Z' then Char.ofNat (c.toNat + 32) else c

/-- ASCII lowercase of a character list. -/
def lowerStr (cs : List Char) : List Char := cs.map lowerChar

/-- Filename normalisation used by `_find_document_by_name`: lowercase,
then drop space characters. -/
def normalizeName (s : String) : List Char :=
  (lowerStr s.data).filter (fun c => !(c == ' '))

/-- `_find_document_by_name`: the first document (in input order) whose
normalised filename contains the normalised target, or is contained in
it; `none` when no document matches. -/
def find_document_by_name (documents : List CSVDocumentDetail)
    (filename_part : String) : Option CSVDocumentDetail :=
  documents.find? (fun doc =>
    occursIn (normalizeName filename_part) (normalizeName doc.filename) ||
    occursIn (normalizeName doc.filename) (normalizeName filename_part))

/-- Split a character list into its leading run of decimal digits and
the remainder. -/
def takeDigits : List Char → List Char × List Char
  | [] => ([], [])
  | c :: cs =>
      if c.isDigit then
        let p := takeDigits cs
        (c :: p.1, p.2)
      else ([], c :: cs)

/-- Value of a list of decimal digit characters. -/
def digitsToNat (ds : List Char) : Nat :=
  ds.foldl (fun a c => a * 10 + (c.toNat - 48)) 0

/-- Unsigned decimal mantissa: `digits [. digits]` or `. digits`,
returning the value and the unconsumed remainder. -/
def parseMantissa (cs : List Char) : Option (ℚ × List Char) :=
  let ip := takeDigits cs
  match ip.2 with
  | '.' :: r2 =>
      let fp := takeDigits r2
      if ip.1.isEmpty && fp.1.isEmpty then none
      else some ((digitsToNat ip.1 : ℚ) +
        (digitsToNat fp.1 : ℚ) / (10 : ℚ) ^ fp.1.length, fp.2)
  | _ => if ip.1.isEmpty then none else some ((digitsToNat ip.1 : ℚ), ip.2)

/-- Mantissa with optional exponent part; the whole input must be
consumed. -/
def parseFloatAux (cs : List Char) : Option ℚ :=
  match parseMantissa cs with
  | none => none
  | some (m, rest) =>
      match rest with
      | [] => some m
      | e :: r =>
          if e == 'e' || e == 'E' then
            let se : Int × List Char :=
              match r with
              | '+' :: t => (1, t)
              | '-' :: t => (-1, t)
              | t => (1, t)
            let ed := takeDigits se.2
            if ed.1.isEmpty || !ed.2.isEmpty then none
            else some (m * (10 : ℚ) ^ (se.1 * (digitsToNat ed.1 : Int)))
          else none

/-- The float grammar accepted by the Python float constructor and by
`pd.to_numeric` on strings: optional surrounding whitespace, optional
sign, decimal mantissa, optional exponent.  `none` models
`ValueError` / coercion to `NaN`. -/
def parseFloat? (s : String) : Option ℚ :=
  match (s.data.dropWhile Char.isWhitespace).reverse.dropWhile
      Char.isWhitespace |>.reverse with
  | '+' :: cs => parseFloatAux cs
  | '-' :: cs => (parseFloatAux cs).map (fun q => -q)
  | cs => parseFloatAux cs

/-- The character strip shared by the regex replace in `_data_to_df`
(character class of dollar and comma, replaced by the empty string) and
the per-metric replace calls: remove every dollar sign and comma, keep
everything else. -/
def stripDollarComma (s : String) : String :=
  String.mk (s.data.filter (fun c => !(c == '$') && !(c == ',')))

/-- Least `k` with `d ∣ 10 ^ k`, when one exists below 40: detects
denominators of decimally-representable rationals. -/
def decExp (d : Nat) : Option Nat :=
  (List.range 40).find? (fun k => (10 : Nat) ^ k % d == 0)

/-- Python `str` of a numeric cell.  Exact decimal rendering for
decimally-representable rationals (every numeric cell arising from
parsed document data is of this form, and the Python shortest-round-trip
float printing yields exactly this string for them); an explicit
fraction fallback otherwise. -/
def numToStr (q : ℚ) : String :=
  let sign := if q.num < 0 then "-" else ""
  match decExp q.den with
  | some 0 => sign ++ toString q.num.natAbs
  | some (k + 1) =>
      let m := q.num.natAbs * 10 ^ (k + 1) / q.den
      let s := toString m
      let s := if s.length < k + 2 then
          String.mk (List.replicate (k + 2 - s.length) '0') ++ s
        else s
      sign ++ s.take (s.length - (k + 1)) ++ "." ++ s.drop (s.length - (k + 1))
  | none => sign ++ toString q.num.natAbs ++ "/" ++ toString q.den

/-- Python `str` of a cell (`astype(str)` on a DataFrame column). -/
def cellStr : Cell → String
  | .str s => s
  | .num q => numToStr q
  | .null => "None"

/-- Per-cell numeric coercion, the composite effect of the
dollar/comma strip followed by `pd.to_numeric` under coerce errors and
`fillna(0)` (and of the float-of-str conversion with its except-0.0
fallback in `get_invoices_data`): a numeric cell passes
through, a string is stripped of `$` and `,` and parsed, anything
unparsable (and null, via `fillna(0)`) becomes `0`. -/
def toNumeric : Cell → ℚ
  | .num q => q
  | .str s => (parseFloat? (stripDollarComma s)).getD 0
  | .null => 0

/-- Cell of row `r` in column `c`; `none` models the `NaN` a DataFrame
materialises when the row lacks the key. -/
def getCell (r : Row) (c : String) : Option Cell :=
  (r.find? (fun p => p.1 == c)).map (fun p => p.2)

/-- `c in df.columns`: the column exists when some row carries the key. -/
def hasCol (data : List Row) (c : String) : Bool :=
  data.any (fun r => r.any (fun p => p.1 == c))

/-- A DataFrame column has pandas dtype `object` exactly when some cell
in it is a string (otherwise it is numeric: ints, floats and nulls). -/
def colIsObject (data : List Row) (c : String) : Bool :=
  data.any (fun r =>
    match getCell r c with
    | some (.str _) => true
    | _ => false)

/-- `astype(str)` followed by the `[$,]` strip, applied to one cell of
an object column by `_data_to_df`. -/
def cleanCell (c : Cell) : Cell := .str (stripDollarComma (cellStr c))

/-- `_data_to_df`: convert `full_data` to a DataFrame, and for every
object (string-typed) column replace each cell by its `str` form with
`$` and `,` removed.  Numeric columns are left untouched. -/
def data_to_df (data : List Row) : List Row :=
  data.map (fun r => r.map (fun p =>
    if colIsObject data p.1 then (p.1, cleanCell p.2) else p))

/-- Coerced numeric value of row `r` in column `c` (missing key: `NaN`,
then `fillna(0)`). -/
def rowVal (r : Row) (c : String) : ℚ :=
  match getCell r c with
  | some cell => toNumeric cell
  | none => 0

/-- Sum of a numerically-coerced column of `_data_to_df data`. -/
def colSum (data : List Row) (c : String) : ℚ :=
  ((data_to_df data).map (fun r => rowVal r c)).sum

/-- Mean of a numerically-coerced column (`fillna(0)` happens before
`mean()`, so the divisor is the full row count). -/
def colMean (data : List Row) (c : String) : ℚ :=
  colSum data c / (data.length : ℚ)

/-- The dictionary returned by `calculate_stats`, with its seven keys as
fields.  `cashRunway` is an integer in the source (`int(runway_days)` or
a sentinel), the two change percents are always the documented `0.0`
defaults. -/
structure StatsResult where
  current : ℚ
  forecast30Day : ℚ
  atRiskInvoices : ℚ
  cashRunway : Int
  currentChangePercent : ℚ
  forecastChangePercent : ℚ
  overdueInvoicesCount : Nat
deriving DecidableEq

/-- Sub-computation 1 of `calculate_stats` (and the identical
current-balance block repeated in `get_cash_forecast_data`,
`get_cash_shortfalls` and `get_scenario_analysis`): locate the
bank-summary document and sum the coerced Net Amount column; `0` when
the document, its rows or the column are absent. -/
def currentOf : Option CSVDocumentDetail → ℚ
  | none => 0
  | some d =>
      if !d.full_data.isEmpty && hasCol d.full_data "Net Amount" then
        colSum d.full_data "Net Amount"
      else 0

/-- Row predicate for sub-computation 2: the stringified Month cell
contains the text Jan 2025, case-insensitively (the contains check with
case False; a missing cell stringifies to nan and never matches). -/
def monthContainsJan2025 (r : Row) : Bool :=
  occursIn "jan 2025".data (lowerStr (match getCell r "Month" with
    | some c => cellStr c
    | none => "nan").data)

/-- Sub-computation 2 of `calculate_stats`: locate the
cash-flow-analysis document and take the coerced Net Cash Flow value of
the first row whose Month contains Jan 2025; `0` when the document, its
rows, either column, or a matching row is absent. -/
def forecast30Of : Option CSVDocumentDetail → ℚ
  | none => 0
  | some d =>
      if !d.full_data.isEmpty && hasCol d.full_data "Month" &&
          hasCol d.full_data "Net Cash Flow" then
        match (data_to_df d.full_data).find? monthContainsJan2025 with
        | some r => rowVal r "Net Cash Flow"
        | none => 0
      else 0

/-- The `isin` status filter of the source: the cell is the literal
string Outstanding or the literal string Partial Payment (a numeric or
null cell never matches `isin` against strings). -/
def statusActive (r : Row) : Bool :=
  match getCell r "Status" with
  | some (.str s) => s == "Outstanding" || s == "Partial Payment"
  | _ => false

/-- The at-risk mask of sub-computation 3: active status AND coerced
Days Past Due strictly positive. -/
def atRiskMask (r : Row) : Bool :=
  statusActive r && decide ((0 : ℚ) < rowVal r "Days Past Due")

/-- Sub-computation 3 of `calculate_stats`: locate the
accounts-receivable document, filter rows with active status and
positive days past due, and return (sum of coerced Balance Due, row
count); `(0, 0)` when the document, its rows, or any of the three
required columns is absent. -/
def atRiskOf : Option CSVDocumentDetail → ℚ × Nat
  | none => (0, 0)
  | some d =>
      if !d.full_data.isEmpty && hasCol d.full_data "Status" &&
          hasCol d.full_data "Days Past Due" &&
          hasCol d.full_data "Balance Due" then
        let rows := (data_to_df d.full_data).filter atRiskMask
        ((rows.map (fun r => rowVal r "Balance Due")).sum, rows.length)
      else (0, 0)

/-- Sub-computation 4 of `calculate_stats`: locate the expense-forecast
document; burn is mean Total Expenses minus mean Estimated Revenue; if
burn and the already-computed current position are both positive the
runway is `current / burn * 30` days truncated to an integer (the value
is positive, so truncation is the floor), capped by the 9999 sentinel
at 3650 days; otherwise the 999 infinite/secure sentinel.  `0` when the
document, its rows, or either column is absent. -/
def runwayOf (o : Option CSVDocumentDetail) (current : ℚ) : Int :=
  match o with
  | none => 0
  | some d =>
      if !d.full_data.isEmpty && hasCol d.full_data "Total Expenses" &&
          hasCol d.full_data "Estimated Revenue" then
        let burn := colMean d.full_data "Total Expenses" -
          colMean d.full_data "Estimated Revenue"
        if 0 < burn ∧ 0 < current then
          let runwayDays := current / burn * 30
          if runwayDays < 3650 then ⌊runwayDays⌋ else 9999
        else 999
      else 0

/-- `calculate_stats`: the four independent sub-computations, each on
its own located document; every failure branch of the source (absent
document, absent column, caught exception) leaves the corresponding
default from the initial stats dictionary. -/
def calculate_stats (documents : List CSVDocumentDetail) : StatsResult :=
  let current := currentOf
    (find_document_by_name documents "BankStatements(SummarybyType)")
  let f30 := forecast30Of
    (find_document_by_name documents "CustomerPaymentsForecast(CashFlowAnalysis)")
  let ar := atRiskOf (find_document_by_name documents "ARRecords")
  let runway := runwayOf
    (find_document_by_name documents "ExpenseForecast(MonthlySummary)") current
  { current := current
    forecast30Day := f30
    atRiskInvoices := ar.1
    cashRunway := runway
    currentChangePercent := 0
    forecastChangePercent := 0
    overdueInvoicesCount := ar.2 }

/-- Lowercase three-letter month abbreviations recognised by the
strptime pattern of abbreviated month name plus year. -/
def monthAbbrevs : List (List Char) :=
  ["jan".data, "feb".data, "mar".data, "apr".data, "may".data, "jun".data,
   "jul".data, "aug".data, "sep".data, "oct".data, "nov".data, "dec".data]

/-- Split a character list at every occurrence of the separator (the
Python split used for the date patterns). -/
def splitOnChar (sep : Char) : List Char → List (List Char)
  | [] => [[]]
  | c :: cs =>
      let r := splitOnChar sep cs
      if c == sep then [] :: r
      else
        match r with
        | [] => [[c]]
        | h :: t => (c :: h) :: t

/-- Nonempty all-digit character list. -/
def isDigits (cs : List Char) : Bool := !cs.isEmpty && cs.all (fun c => c.isDigit)

/-- Chronological sort key of a calendar date. -/
def yearMonthDayKey (y m d : Nat) : Int := ((y * 10000 + m * 100 + d : Nat) : Int)

/-- Sort key standing for `pd.Timestamp.min`: below every parsed date. -/
def minTimestampKey : Int := -1000000000

/-- The general-parser fallback of `_parse_month_year`, modelled on ISO
dates (year-month-day or year-month, dash separated); every other label
falls through to the minimal timestamp.  The claims depend only on this
being a total sort key. -/
def generalDateKey (s : String) : Int :=
  match splitOnChar '-' s.data with
  | [y, m, d] =>
      if isDigits y && isDigits m && isDigits d then
        yearMonthDayKey (digitsToNat y) (digitsToNat m) (digitsToNat d)
      else minTimestampKey
  | [y, m] =>
      if isDigits y && isDigits m then
        yearMonthDayKey (digitsToNat y) (digitsToNat m) 1
      else minTimestampKey
  | _ => minTimestampKey

/-- `_parse_month_year` as a total chronological sort key: first the
strptime pattern of case-insensitive abbreviated month name, one space,
digit year; then the general parser; `pd.Timestamp.min` on total
failure. -/
def parse_month_year (s : String) : Int :=
  match splitOnChar ' ' s.data with
  | [mon, yr] =>
      match monthAbbrevs.findIdx? (fun m => m == lowerStr mon) with
      | some i =>
          if isDigits yr then
            yearMonthDayKey (digitsToNat yr) (i + 1) 1
          else generalDateKey s
      | none => generalDateKey s
  | _ => generalDateKey s

/-- One row of the merged collections/expenses table (columns Month,
Total Collections, Total Expenses after the outer join and
`fillna(0)`). -/
structure MergedRow where
  month : String
  collections : ℚ
  expenses : ℚ
deriving DecidableEq

/-- Left side of the outer join: every left row paired with each
matching right row (the cartesian behaviour of `pd.merge` on duplicate
keys), or zero-filled when the key is absent on the right. -/
def mergeLeft (b : List (String × ℚ)) : List (String × ℚ) → List MergedRow
  | [] => []
  | p :: ps =>
      (let ms := b.filter (fun q => q.1 == p.1)
       if ms.isEmpty then [⟨p.1, p.2, 0⟩]
       else ms.map (fun q => ⟨p.1, p.2, q.2⟩)) ++ mergeLeft b ps

/-- `pd.merge` with outer join on the literal Month value followed by
`fillna(0)`: all left-row pairings, then the zero-filled right rows
whose key never occurs on the left. -/
def mergeOuter (a b : List (String × ℚ)) : List MergedRow :=
  mergeLeft b a ++
    (b.filter (fun q => a.all (fun p => !(p.1 == q.1)))).map
      (fun q => ⟨q.1, 0, q.2⟩)

/-- Sort order of `sort_values` on the DateObj column: comparison of
parsed month keys. -/
def rowLe (x y : MergedRow) : Prop :=
  parse_month_year x.month ≤ parse_month_year y.month

instance : DecidableRel rowLe := fun _ _ => inferInstanceAs (Decidable (_ ≤ _))

instance : IsTotal MergedRow rowLe := ⟨fun _ _ => le_total _ _⟩

instance : IsTrans MergedRow rowLe := ⟨fun _ _ _ h1 h2 => le_trans h1 h2⟩

/-- The shared month-series aligner: outer join on the literal label,
zero fill, then sort by the parsed month key. -/
def mergeSorted (a b : List (String × ℚ)) : List MergedRow :=
  List.insertionSort rowLe (mergeOuter a b)

/-- The stringified Month label of a row (`str` applied to the cell;
nan for a missing cell). -/
def monthStr (r : Row) : String :=
  match getCell r "Month" with
  | some c => cellStr c
  | none => "nan"

/-- The (Month, coerced value) series a caller extracts from a located
document before merging. -/
def monthSeries (data : List Row) (valueCol : String) : List (String × ℚ) :=
  (data_to_df data).map (fun r => (monthStr r, rowVal r valueCol))

/-- Negation of `df.empty`: the DataFrame built from the rows has at
least one row and at least one column, i.e. some row carries a key. -/
def dfNonempty (data : List Row) : Bool := data.any (fun r => !r.isEmpty)

/-- The shared merged-table construction of `get_scenario_analysis`,
`get_cash_shortfalls` and `get_cash_flow_data`: both the
monthly-forecast collections document and the expense-forecast document
must be located with a nonempty DataFrame, and the Month plus value
columns must exist (a missing column raises a KeyError inside the merge
and is absorbed by the enclosing except into the empty result, exactly
like the `none` branch here). -/
def scenarioCore (documents : List CSVDocumentDetail) : Option (List MergedRow) :=
  match find_document_by_name documents "CustomerPaymentsForecast(MonthlyForecast)",
        find_document_by_name documents "ExpenseForecast(MonthlySummary)" with
  | some di, some dout =>
      if dfNonempty di.full_data && dfNonempty dout.full_data
          && hasCol di.full_data "Month" && hasCol di.full_data "Total Collections"
          && hasCol dout.full_data "Month" && hasCol dout.full_data "Total Expenses" then
        some (mergeSorted (monthSeries di.full_data "Total Collections")
          (monthSeries dout.full_data "Total Expenses"))
      else none
  | _, _ => none

/-- Expected per-month net: collections minus expenses. -/
def expNet (r : MergedRow) : ℚ := r.collections - r.expenses

/-- Optimistic per-month net: collections up 15 percent, expenses down
5 percent. -/
def optNet (r : MergedRow) : ℚ := r.collections * 1.15 - r.expenses * 0.95

/-- Pessimistic per-month net: collections down 15 percent, expenses up
10 percent. -/
def pessNet (r : MergedRow) : ℚ := r.collections * 0.85 - r.expenses * 1.10

/-- The running-balance walk of `get_scenario_analysis`: starting from
the seed balance, add the per-row net and record the balance after
every row.  The source maintains the three scenario balances in one
loop over the same rows; the three walks never interact, so the loop is
equivalently three instances of this scan. -/
def runBalances (b : ℚ) (f : MergedRow → ℚ) : List MergedRow → List ℚ
  | [] => []
  | r :: rs => (b + f r) :: runBalances (b + f r) f rs

/-- One chart dataset: its label and numeric data (styling fields
omitted). -/
structure Dataset where
  label : String
  data : List ℚ
deriving DecidableEq

/-- A labels-plus-datasets chart payload. -/
structure ChartData where
  labels : List String
  datasets : List Dataset
deriving DecidableEq

/-- `get_scenario_analysis`: on the merged sorted table, the three
running balances seeded from the bank-summary balance; empty labels and
datasets when the merged table is unavailable. -/
def get_scenario_analysis (documents : List CSVDocumentDetail) : ChartData :=
  match scenarioCore documents with
  | none => ⟨[], []⟩
  | some rows =>
      let b := currentOf
        (find_document_by_name documents "BankStatements(SummarybyType)")
      ⟨rows.map (fun r => r.month),
       [⟨"Optimistic", runBalances b optNet rows⟩,
        ⟨"Expected", runBalances b expNet rows⟩,
        ⟨"Pessimistic", runBalances b pessNet rows⟩]⟩

/-- One detected shortfall period (the keyDrivers explanation strings
are presentation-only and omitted). -/
structure ShortfallPeriod where
  week : String
  shortfall : ℚ
  priority : String
  closingBalance : ℚ
  projectedInflows : ℚ
  projectedOutflows : ℚ
  netCashFlow : ℚ
  gap : ℚ
deriving DecidableEq

/-- The priority rule of `get_cash_shortfalls` on a shortfall amount. -/
def priorityOf (amount : ℚ) : String :=
  if amount > 200000 then "High" else if amount > 100000 then "Medium" else "Low"

/-- The pessimistic walk of `get_cash_shortfalls`: reduce collections
by 15 percent, increase expenses by 10 percent, update the running
balance, and record a period whenever the balance is negative after the
update; the walk always continues to the next row. -/
def shortfallWalk (bal : ℚ) : List MergedRow → List ShortfallPeriod
  | [] => []
  | r :: rs =>
      let col := r.collections * 0.85
      let exp := r.expenses * 1.10
      let net := col - exp
      let b := bal + net
      if b < 0 then
        { week := r.month
          shortfall := |b|
          priority := priorityOf |b|
          closingBalance := b
          projectedInflows := col
          projectedOutflows := exp
          netCashFlow := net
          gap := |b| } :: shortfallWalk b rs
      else shortfallWalk b rs

/-- The aggregate returned by `get_cash_shortfalls`. -/
structure ShortfallResult where
  periods : List ShortfallPeriod
  totalShortfall : ℚ
  hasShortfalls : Bool
deriving DecidableEq

/-- `get_cash_shortfalls`: run the pessimistic walk over the merged
sorted table seeded from the bank-summary balance (empty when the
merged table is unavailable), then aggregate. -/
def get_cash_shortfalls (documents : List CSVDocumentDetail) : ShortfallResult :=
  let ps :=
    match scenarioCore documents with
    | none => []
    | some rows =>
        shortfallWalk
          (currentOf
            (find_document_by_name documents "BankStatements(SummarybyType)"))
          rows
  ⟨ps, (ps.map (fun p => p.shortfall)).sum, !ps.isEmpty⟩

/-- The 8-point cash-position chart of `get_cash_forecast_data` (the
two dataset payloads, styling omitted). -/
structure ForecastChart where
  labels : List String
  actual : List (Option ℚ)
  forecast : List (Option ℚ)
deriving DecidableEq

/-- The monthly net-cash-flow delta of `get_cash_forecast_data`: the
first coerced Net Cash Flow value of the located cash-flow-analysis
document, `0` when the document, its rows or the column are absent. -/
def monthlyChangeOf (documents : List CSVDocumentDetail) : ℚ :=
  match find_document_by_name documents "CustomerPaymentsForecast(CashFlowAnalysis)" with
  | some d =>
      if !d.full_data.isEmpty && hasCol d.full_data "Net Cash Flow" then
        ((data_to_df d.full_data).map (fun r => rowVal r "Net Cash Flow")).headD 0
      else 0
  | none => 0

/-- The derived weekly delta: a quarter of the monthly change, or the
hardcoded 400000 fallback when the monthly change is exactly zero. -/
def weeklyChangeOf (documents : List CSVDocumentDetail) : ℚ :=
  let mc := monthlyChangeOf documents
  if mc == 0 then 400000 else mc / 4

/-- `get_cash_forecast_data` (the second, effective definition in the
source): four actual points walked weekly from the bank-summary
balance, padded with null; the forecast series null before the handoff,
repeating the last actual value at index 3, then four more weekly
steps. -/
def get_cash_forecast_data (documents : List CSVDocumentDetail) : ForecastChart :=
  let b := currentOf
    (find_document_by_name documents "BankStatements(SummarybyType)")
  let w := weeklyChangeOf documents
  let a1 := b + w
  let a2 := a1 + w
  let a3 := a2 + w
  let f1 := a3 + w
  let f2 := f1 + w
  let f3 := f2 + w
  let f4 := f3 + w
  { labels := ["Jan 1", "Jan 8", "Jan 15", "Jan 22",
               "Jan 29", "Feb 5", "Feb 12", "Feb 19"]
    actual := [some b, some a1, some a2, some a3, none, none, none, none]
    forecast := [none, none, none, some a3, some f1, some f2, some f3, some f4] }

/-- The dictionary returned by `get_invoices_stats`. -/
structure InvoicesStats where
  totalReceivables : ℚ
  totalAtRiskAmount : ℚ
  collectionRate : ℚ
  activeInvoiceCount : Nat
  atRiskInvoiceCount : Nat
deriving DecidableEq

/-- `get_invoices_stats`: the active population is exactly the rows
with literal status Outstanding or Partial Payment (the dead
`active_mask` in the source that also lists Overdue is never used); the
at-risk population further requires positive coerced days past due; the
collection rate reads the Collection Rate percent column of the first
monthly-forecast row, stripping percent signs (an unparsable value is
absorbed by the enclosing except into the `0.0` default). -/
def get_invoices_stats (documents : List CSVDocumentDetail) : InvoicesStats :=
  let ar :=
    match find_document_by_name documents "ARRecords" with
    | some d =>
        if !d.full_data.isEmpty && hasCol d.full_data "Status" &&
            hasCol d.full_data "Days Past Due" &&
            hasCol d.full_data "Balance Due" then
          let active := (data_to_df d.full_data).filter statusActive
          let atRisk := active.filter
            (fun r => decide ((0 : ℚ) < rowVal r "Days Past Due"))
          ((active.map (fun r => rowVal r "Balance Due")).sum,
           (atRisk.map (fun r => rowVal r "Balance Due")).sum,
           active.length, atRisk.length)
        else (0, 0, 0, 0)
    | none => (0, 0, 0, 0)
  let cr :=
    match find_document_by_name documents "CustomerPaymentsForecast(MonthlyForecast)" with
    | some d =>
        if !d.full_data.isEmpty && hasCol d.full_data "Collection Rate %" then
          match getCell ((data_to_df d.full_data).headD []) "Collection Rate %" with
          | some c =>
              (parseFloat? (String.mk ((cellStr c).data.filter
                (fun ch => !(ch == '%'))))).getD 0
          | none => 0
        else 0
    | none => 0
  { totalReceivables := ar.1
    totalAtRiskAmount := ar.2.1
    collectionRate := cr
    activeInvoiceCount := ar.2.2.1
    atRiskInvoiceCount := ar.2.2.2 }

/-- The coercion rule as worded by the specification, for comparison
with the implemented `toNumeric`: strip every character that is not a
digit, a dot or a minus sign, then parse, `0.0` on failure. -/
def spec_toNumeric : Cell → ℚ
  | .num q => q
  | .str s => (parseFloat? (String.mk (s.data.filter
      (fun c => c.isDigit || c == '.' || c == '-')))).getD 0
  | .null => 0

/-- The merged sorted rows the scenario functions walk; empty when the
merged table is unavailable. -/
def mergedRowsOf (documents : List CSVDocumentDetail) : List MergedRow :=
  (scenarioCore documents).getD []

/-- The data array of dataset `i` of the scenario-analysis result
(0 optimistic, 1 expected, 2 pessimistic; empty when absent). -/
def scenarioSeries (documents : List CSVDocumentDetail) (i : Nat) : List ℚ :=
  (((get_scenario_analysis documents).datasets).map (fun ds => ds.data)).getD i []

/-- Sub-computation 1 has no usable source: no bank-summary document,
or no rows, or no Net Amount column. -/
def bankMissing (documents : List CSVDocumentDetail) : Bool :=
  match find_document_by_name documents "BankStatements(SummarybyType)" with
  | none => true
  | some d => d.full_data.isEmpty || !hasCol d.full_data "Net Amount"

/-- Sub-computation 2 has no usable source: no cash-flow-analysis
document, or no rows, or a missing Month or Net Cash Flow column. -/
def forecastSourceMissing (documents : List CSVDocumentDetail) : Bool :=
  match find_document_by_name documents "CustomerPaymentsForecast(CashFlowAnalysis)" with
  | none => true
  | some d => d.full_data.isEmpty || !hasCol d.full_data "Month" ||
      !hasCol d.full_data "Net Cash Flow"

/-- Sub-computation 3 has no usable source: no accounts-receivable
document, or no rows, or one of the Status, Days Past Due, Balance Due
columns missing. -/
def arMissing (documents : List CSVDocumentDetail) : Bool :=
  match find_document_by_name documents "ARRecords" with
  | none => true
  | some d => d.full_data.isEmpty || !hasCol d.full_data "Status" ||
      !hasCol d.full_data "Days Past Due" || !hasCol d.full_data "Balance Due"

/-- Sub-computation 4 has no usable source: no expense-forecast
document, or no rows, or a missing Total Expenses or Estimated Revenue
column. -/
def expenseMissing (documents : List CSVDocumentDetail) : Bool :=
  match find_document_by_name documents "ExpenseForecast(MonthlySummary)" with
  | none => true
  | some d => d.full_data.isEmpty || !hasCol d.full_data "Total Expenses" ||
      !hasCol d.full_data "Estimated Revenue"

/-- A document is absent or carries no row data (the two falsy cases of
the source guard on a located document). -/
def docMissingOrEmpty (documents : List CSVDocumentDetail) (target : String) : Bool :=
  match find_document_by_name documents target with
  | none => true
  | some d => d.full_data.isEmpty

/-- Bank-summary document of the verification fixture
(reproduce_stats.py): net amounts 1000, 500, 2100. -/
def bankDocFixture : CSVDocumentDetail :=
  { filename := "Electricity Provider Bank Statements(Summary by Type).csv"
    full_data :=
      [[("Date", .str "2025-01-01"), ("Net Amount", .str "1000.00")],
       [("Date", .str "2025-01-15"), ("Net Amount", .str "500.00")],
       [("Date", .str "2025-01-30"), ("Net Amount", .str "2100.00")]] }

/-- Cash-flow-analysis document of the verification fixture: the
Jan 2025 row carries net cash flow 5350.50. -/
def cashFlowDocFixture : CSVDocumentDetail :=
  { filename := "Electricity Provider Customer Payments Forecast(Cash Flow Analysis).csv"
    full_data :=
      [[("Month", .str "Dec 2024"), ("Net Cash Flow", .str "5000")],
       [("Month", .str "Jan 2025"), ("Net Cash Flow", .str "5350.50")],
       [("Month", .str "Feb 2025"), ("Net Cash Flow", .str "6000")]] }

/-- Accounts-receivable document of the verification scenario: rows
(Outstanding, 45, 1000), (Paid, 0, 0), (Partial Payment, 10, 500). -/
def arDocFixture : CSVDocumentDetail :=
  { filename := "Electricity_Provider_AR  Records-02142026 2(Electricity AR Records).csv"
    full_data :=
      [[("Status", .str "Outstanding"), ("Days Past Due", .str "45"),
        ("Balance Due", .str "1000")],
       [("Status", .str "Paid"), ("Days Past Due", .str "0"),
        ("Balance Due", .str "0")],
       [("Status", .str "Partial Payment"), ("Days Past Due", .str "10"),
        ("Balance Due", .str "500")]] }

/-- The document set of the end-to-end verification scenario. -/
def fixtureDocs : List CSVDocumentDetail :=
  [bankDocFixture, cashFlowDocFixture, arDocFixture]

/-- Accounts-receivable document with the four statuses Outstanding,
Paid, Partial Payment, Overdue and balances 1000, 0, 500, 2000. -/
def arDocOverdue : CSVDocumentDetail :=
  { filename := "Electricity_Provider_AR  Records-02142026 2(Electricity AR Records).csv"
    full_data :=
      [[("Status", .str "Outstanding"), ("Days Past Due", .str "45"),
        ("Balance Due", .str "1000")],
       [("Status", .str "Paid"), ("Days Past Due", .str "0"),
        ("Balance Due", .str "0")],
       [("Status", .str "Partial Payment"), ("Days Past Due", .str "10"),
        ("Balance Due", .str "500")],
       [("Status", .str "Overdue"), ("Days Past Due", .str "60"),
        ("Balance Due", .str "2000")]] }

/-- Document set for the invoice-statistics scenario. -/
def invoiceStatsDocs : List CSVDocumentDetail := [arDocOverdue]

/-- Monthly-forecast collections document with a duplicated month
label. -/
def dupCollectionsDoc : CSVDocumentDetail :=
  { filename := "Electricity Provider Customer Payments Forecast(Monthly Forecast).csv"
    full_data :=
      [[("Month", .str "Jan 2025"), ("Total Collections", .str "100")],
       [("Month", .str "Jan 2025"), ("Total Collections", .str "200")]] }

/-- Expense document with the single month matching the duplicated
label. -/
def dupExpensesDoc : CSVDocumentDetail :=
  { filename := "Electricity Provider Expense Forecast(Monthly Summary).csv"
    full_data := [[("Month", .str "Jan 2025"), ("Total Expenses", .str "50")]] }

/-- Document set exhibiting a duplicated month label on one side of the
outer join. -/
def dupMonthDocs : List CSVDocumentDetail := [dupCollectionsDoc, dupExpensesDoc]

/-- Monthly-forecast collections document of the scenario-analysis
fixture (nonnegative collections). -/
def scenarioCollectionsDoc : CSVDocumentDetail :=
  { filename := "Electricity Provider Customer Payments Forecast(Monthly Forecast).csv"
    full_data :=
      [[("Month", .str "Jan 2025"), ("Total Collections", .str "20000")],
       [("Month", .str "Feb 2025"), ("Total Collections", .str "25000")],
       [("Month", .str "Mar 2025"), ("Total Collections", .str "22000")]] }

/-- Expense-forecast document of the scenario-analysis fixture
(nonnegative expenses). -/
def scenarioExpensesDoc : CSVDocumentDetail :=
  { filename := "Electricity Provider Expense Forecast(Monthly Summary).csv"
    full_data :=
      [[("Month", .str "Jan 2025"), ("Total Expenses", .str "18000"),
        ("Estimated Revenue", .str "20000")],
       [("Month", .str "Feb 2025"), ("Total Expenses", .str "20000"),
        ("Estimated Revenue", .str "25000")],
       [("Month", .str "Mar 2025"), ("Total Expenses", .str "19000"),
        ("Estimated Revenue", .str "22000")]] }

/-- Document set for the scenario-analysis ordering instance. -/
def scenarioDocs : List CSVDocumentDetail :=
  [bankDocFixture, scenarioCollectionsDoc, scenarioExpensesDoc]

/-- Expense-forecast document with positive burn (expenses 100, revenue
0). -/
def burnOnlyExpenseDoc : CSVDocumentDetail :=
  { filename := "Electricity Provider Expense Forecast(Monthly Summary).csv"
    full_data :=
      [[("Month", .str "Jan 2025"), ("Total Expenses", .str "100"),
        ("Estimated Revenue", .str "0")]] }

/-- Document set with an expense forecast but no bank summary: positive
burn, zero current cash. -/
def runwayDocs : List CSVDocumentDetail := [burnOnlyExpenseDoc]

/-! Theorems on the embedded engine. -/

/-- C1: `calculate_stats` is total and returns a record with all seven
keys of the initial stats dictionary; each of the four sub-computations
is a function of its own located document only (the runway additionally
reads the already-computed current position, as in the source), the two
change percents are always their `0.0` defaults, and whenever a
sub-computation has no usable source (document, rows or required
columns absent) its own metric keeps its zero default while the other
sub-computations are unaffected. -/
theorem calculate_stats_keys_and_isolation (documents : List CSVDocumentDetail) :
    (calculate_stats documents).current =
      currentOf (find_document_by_name documents "BankStatements(SummarybyType)") ∧
    (calculate_stats documents).forecast30Day =
      forecast30Of (find_document_by_name documents "CustomerPaymentsForecast(CashFlowAnalysis)") ∧
    (calculate_stats documents).atRiskInvoices =
      (atRiskOf (find_document_by_name documents "ARRecords")).1 ∧
    (calculate_stats documents).overdueInvoicesCount =
      (atRiskOf (find_document_by_name documents "ARRecords")).2 ∧
    (calculate_stats documents).cashRunway =
      runwayOf (find_document_by_name documents "ExpenseForecast(MonthlySummary)")
        ((calculate_stats documents).current) ∧
    (calculate_stats documents).currentChangePercent = 0 ∧
    (calculate_stats documents).forecastChangePercent = 0 ∧
    (bankMissing documents = true → (calculate_stats documents).current = 0) ∧
    (forecastSourceMissing documents = true →
      (calculate_stats documents).forecast30Day = 0) ∧
    (arMissing documents = true →
      (calculate_stats documents).atRiskInvoices = 0 ∧
      (calculate_stats documents).overdueInvoicesCount = 0) ∧
    (expenseMissing documents = true → (calculate_stats documents).cashRunway = 0) := by
  refine ⟨rfl, rfl, rfl, rfl, rfl, rfl, rfl, ?_, ?_, ?_, ?_⟩
  · intro hm
    show currentOf (find_document_by_name documents "BankStatements(SummarybyType)") = 0
    unfold bankMissing at hm
    cases hfind : find_document_by_name documents "BankStatements(SummarybyType)" with
    | none => rfl
    | some d =>
        rw [hfind] at hm
        simp only [Bool.or_eq_true, Bool.not_eq_true'] at hm
        rcases hm with h | h <;> simp [currentOf, h]
  · intro hm
    show forecast30Of
      (find_document_by_name documents "CustomerPaymentsForecast(CashFlowAnalysis)") = 0
    unfold forecastSourceMissing at hm
    cases hfind : find_document_by_name documents "CustomerPaymentsForecast(CashFlowAnalysis)" with
    | none => rfl
    | some d =>
        rw [hfind] at hm
        simp only [Bool.or_eq_true, Bool.not_eq_true'] at hm
        rcases hm with (h | h) | h <;> simp [forecast30Of, h]
  · intro hm
    have h0 : atRiskOf (find_document_by_name documents "ARRecords") = (0, 0) := by
      unfold arMissing at hm
      cases hfind : find_document_by_name documents "ARRecords" with
      | none => rfl
      | some d =>
          rw [hfind] at hm
          simp only [Bool.or_eq_true, Bool.not_eq_true'] at hm
          rcases hm with ((h | h) | h) | h <;> simp [atRiskOf, h]
    constructor
    · show (atRiskOf (find_document_by_name documents "ARRecords")).1 = 0
      rw [h0]
    · show (atRiskOf (find_document_by_name documents "ARRecords")).2 = 0
      rw [h0]
  · intro hm
    show runwayOf (find_document_by_name documents "ExpenseForecast(MonthlySummary)")
      ((calculate_stats documents).current) = 0
    unfold expenseMissing at hm
    cases hfind : find_document_by_name documents "ExpenseForecast(MonthlySummary)" with
    | none => rfl
    | some d =>
        rw [hfind] at hm
        simp only [Bool.or_eq_true, Bool.not_eq_true'] at hm
        rcases hm with (h | h) | h <;> simp [runwayOf, h]

/-- Witness for C1 at the empty document list: every source is missing
and every metric is its zero default. -/
theorem calculate_stats_keys_and_isolation_witness :
    bankMissing [] = true ∧ forecastSourceMissing [] = true ∧
    arMissing [] = true ∧ expenseMissing [] = true ∧
    (calculate_stats []).current = 0 ∧ (calculate_stats []).forecast30Day = 0 ∧
    (calculate_stats []).atRiskInvoices = 0 ∧
    (calculate_stats []).overdueInvoicesCount = 0 ∧
    (calculate_stats []).cashRunway = 0 := by
  obtain ⟨-, -, -, -, -, -, -, h1, h2, h3, h4⟩ := calculate_stats_keys_and_isolation []
  exact ⟨rfl, rfl, rfl, rfl, h1 rfl, h2 rfl, (h3 rfl).1, (h3 rfl).2, h4 rfl⟩

set_option maxRecDepth 4000 in
set_option maxHeartbeats 1000000 in
/-- C2: on the verification fixture, the bank summary sums to 3600, the
Jan 2025 net cash flow is 5350.5, and the at-risk filter keeps the two
past-due active rows worth 1500. -/
theorem calculate_stats_fixture_values :
    (calculate_stats fixtureDocs).current = 3600 ∧
    (calculate_stats fixtureDocs).forecast30Day = 5350.5 ∧
    (calculate_stats fixtureDocs).atRiskInvoices = 1500 ∧
    (calculate_stats fixtureDocs).overdueInvoicesCount = 2 := by
  have hb : find_document_by_name fixtureDocs "BankStatements(SummarybyType)" =
      some bankDocFixture := by
    with_unfolding_all decide
  have hf : find_document_by_name fixtureDocs "CustomerPaymentsForecast(CashFlowAnalysis)" =
      some cashFlowDocFixture := by
    with_unfolding_all decide
  have ha : find_document_by_name fixtureDocs "ARRecords" = some arDocFixture := by
    with_unfolding_all decide
  refine ⟨?_, ?_, ?_, ?_⟩
  · show currentOf (find_document_by_name fixtureDocs "BankStatements(SummarybyType)") = 3600
    rw [hb]
    simp +decide [currentOf, colSum, data_to_df, colIsObject, cleanCell, cellStr,
      stripDollarComma, getCell, rowVal, toNumeric, parseFloat?, parseFloatAux,
      parseMantissa, takeDigits, digitsToNat, hasCol, bankDocFixture]
    try norm_num
  · show forecast30Of
      (find_document_by_name fixtureDocs "CustomerPaymentsForecast(CashFlowAnalysis)") = 5350.5
    rw [hf]
    simp +decide [forecast30Of, monthContainsJan2025, lowerStr, lowerChar, occursIn,
      leadsIn, data_to_df, colIsObject, cleanCell, cellStr, stripDollarComma, getCell,
      rowVal, toNumeric, parseFloat?, parseFloatAux, parseMantissa, takeDigits,
      digitsToNat, hasCol, monthStr, cashFlowDocFixture]
    try norm_num
  · show (atRiskOf (find_document_by_name fixtureDocs "ARRecords")).1 = 1500
    rw [ha]
    simp +decide [atRiskOf, atRiskMask, statusActive, data_to_df, colIsObject,
      cleanCell, cellStr, stripDollarComma, getCell, rowVal, toNumeric, parseFloat?,
      parseFloatAux, parseMantissa, takeDigits, digitsToNat, hasCol, arDocFixture]
    try norm_num
  · show (atRiskOf (find_document_by_name fixtureDocs "ARRecords")).2 = 2
    rw [ha]
    simp +decide [atRiskOf, atRiskMask, statusActive, data_to_df, colIsObject,
      cleanCell, cellStr, stripDollarComma, getCell, rowVal, toNumeric, parseFloat?,
      parseFloatAux, parseMantissa, takeDigits, digitsToNat, hasCol, arDocFixture]
    try norm_num

set_option maxRecDepth 4000 in
/-- C3 counterexample: the implemented coercion strips only dollar
signs and commas, so a trailing percent sign makes the parse fail and
yields `0`, while the claimed rule (strip every character that is not a
digit, dot or minus) would yield the numeric part. -/
theorem toNumeric_strip_set_counterexample :
    toNumeric (Cell.str "50%") = 0 ∧ spec_toNumeric (Cell.str "50%") = 50 ∧
    ¬ toNumeric (Cell.str "50%") = spec_toNumeric (Cell.str "50%") := by
  refine ⟨?_, ?_, ?_⟩ <;>
  · simp +decide [toNumeric, spec_toNumeric, stripDollarComma, parseFloat?,
      parseFloatAux, parseMantissa, takeDigits, digitsToNat]
    try norm_num

set_option maxRecDepth 4000 in
/-- C3 amended: the coercion is total by construction; an
already-numeric value passes through; otherwise only dollar signs and
commas are stripped (the float parser itself tolerates surrounding
whitespace) and any parse failure — empty string, pure symbols,
percent-suffixed or alphabetic text — yields `0.0`, as does a null
cell. -/
theorem toNumeric_amended_total :
    (∀ q : ℚ, toNumeric (Cell.num q) = q) ∧
    toNumeric Cell.null = 0 ∧
    toNumeric (Cell.str "") = 0 ∧
    toNumeric (Cell.str "$,.--") = 0 ∧
    toNumeric (Cell.str "abc") = 0 ∧
    toNumeric (Cell.str "$1,234.56") = 1234.56 ∧
    toNumeric (Cell.str " -3 ") = -3 ∧
    toNumeric (Cell.str "50%") = 0 := by
  refine ⟨fun _ => rfl, ?_, ?_, ?_, ?_, ?_, ?_, ?_⟩ <;>
  · simp +decide [toNumeric, stripDollarComma, parseFloat?, parseFloatAux,
      parseMantissa, takeDigits, digitsToNat]
    try norm_num

/-- C4: for every document set the forecast chart has exactly the eight
fixed labels, the actual array carries values at indices 0 to 3 and
null at 4 to 7, the forecast array is null at indices 0 to 2, repeats
the last actual value exactly at index 3, and continues from it in
weekly steps at indices 4 to 7. -/
theorem get_cash_forecast_data_shape (documents : List CSVDocumentDetail) :
    ∃ b w : ℚ, get_cash_forecast_data documents =
      { labels := ["Jan 1", "Jan 8", "Jan 15", "Jan 22",
                   "Jan 29", "Feb 5", "Feb 12", "Feb 19"]
        actual := [some b, some (b + w), some (b + w + w), some (b + w + w + w),
                   none, none, none, none]
        forecast := [none, none, none, some (b + w + w + w),
                     some (b + w + w + w + w), some (b + w + w + w + w + w),
                     some (b + w + w + w + w + w + w),
                     some (b + w + w + w + w + w + w + w)] } :=
  ⟨currentOf (find_document_by_name documents "BankStatements(SummarybyType)"),
   weeklyChangeOf documents, rfl⟩

/-- C9: whenever the expense-forecast document is located with rows and
both burn columns, a non-positive burn or a non-positive current cash
position lands in the 999 sentinel branch. -/
theorem cash_runway_sentinel (documents : List CSVDocumentDetail)
    (d : CSVDocumentDetail)
    (hfind : find_document_by_name documents "ExpenseForecast(MonthlySummary)" = some d)
    (hrows : d.full_data.isEmpty = false)
    (hexp : hasCol d.full_data "Total Expenses" = true)
    (hrev : hasCol d.full_data "Estimated Revenue" = true)
    (hcase : colMean d.full_data "Total Expenses" -
        colMean d.full_data "Estimated Revenue" ≤ 0 ∨
      (calculate_stats documents).current ≤ 0) :
    (calculate_stats documents).cashRunway = 999 := by
  show runwayOf (find_document_by_name documents "ExpenseForecast(MonthlySummary)")
    ((calculate_stats documents).current) = 999
  rw [hfind]
  have hnot : ¬(0 < colMean d.full_data "Total Expenses" -
      colMean d.full_data "Estimated Revenue" ∧
      0 < (calculate_stats documents).current) := by
    rintro ⟨h1, h2⟩
    rcases hcase with h | h
    · exact absurd h1 (not_lt.mpr h)
    · exact absurd h2 (not_lt.mpr h)
  simp only [runwayOf, hrows, hexp, hrev, Bool.not_false, Bool.and_self, if_true]
  rw [if_neg hnot]

/-- Witness for C9: an expense forecast with strictly positive burn and
no bank document (current cash 0) yields the 999 sentinel, not 0 and
not a computed runway. -/
theorem cash_runway_sentinel_witness :
    find_document_by_name runwayDocs "ExpenseForecast(MonthlySummary)" =
      some burnOnlyExpenseDoc ∧
    burnOnlyExpenseDoc.full_data.isEmpty = false ∧
    hasCol burnOnlyExpenseDoc.full_data "Total Expenses" = true ∧
    hasCol burnOnlyExpenseDoc.full_data "Estimated Revenue" = true ∧
    (0 : ℚ) < colMean burnOnlyExpenseDoc.full_data "Total Expenses" -
      colMean burnOnlyExpenseDoc.full_data "Estimated Revenue" ∧
    (calculate_stats runwayDocs).current ≤ 0 ∧
    (calculate_stats runwayDocs).cashRunway = 999 := by
  have hfind : find_document_by_name runwayDocs "ExpenseForecast(MonthlySummary)" =
      some burnOnlyExpenseDoc := by
    simp +decide [find_document_by_name, normalizeName, lowerStr, lowerChar,
      occursIn, leadsIn, runwayDocs, burnOnlyExpenseDoc]
  have hburn : (0 : ℚ) < colMean burnOnlyExpenseDoc.full_data "Total Expenses" -
      colMean burnOnlyExpenseDoc.full_data "Estimated Revenue" := by
    simp +decide [colMean, colSum, data_to_df, colIsObject, cleanCell, cellStr,
      stripDollarComma, getCell, rowVal, toNumeric, parseFloat?, parseFloatAux,
      parseMantissa, takeDigits, digitsToNat, burnOnlyExpenseDoc]
    try norm_num
  have hcur : (calculate_stats runwayDocs).current ≤ 0 := by
    have hnone : find_document_by_name runwayDocs "BankStatements(SummarybyType)" =
        none := by
      simp +decide [find_document_by_name, normalizeName, lowerStr, lowerChar,
        occursIn, leadsIn, runwayDocs, burnOnlyExpenseDoc]
    show currentOf (find_document_by_name runwayDocs "BankStatements(SummarybyType)") ≤ 0
    rw [hnone]
    simp [currentOf]
  refine ⟨hfind, by decide, by decide, by decide, hburn, hcur, ?_⟩
  exact cash_runway_sentinel runwayDocs burnOnlyExpenseDoc hfind (by decide)
    (by decide) (by decide) (Or.inr hcur)

/-- C10: if the monthly-forecast collections document or the
expense-forecast document is absent or has no row data, the scenario
analysis returns empty labels and datasets and the shortfall detector
returns no periods, zero total and false flag: the outer join is never
performed one-sided. -/
theorem scenario_and_shortfalls_empty (documents : List CSVDocumentDetail)
    (h : docMissingOrEmpty documents "CustomerPaymentsForecast(MonthlyForecast)" = true ∨
         docMissingOrEmpty documents "ExpenseForecast(MonthlySummary)" = true) :
    get_scenario_analysis documents = ⟨[], []⟩ ∧
    get_cash_shortfalls documents = ⟨[], 0, false⟩ := by
  have hcore : scenarioCore documents = none := by
    unfold scenarioCore
    unfold docMissingOrEmpty at h
    cases hc : find_document_by_name documents "CustomerPaymentsForecast(MonthlyForecast)" with
    | none => rfl
    | some di =>
        cases he : find_document_by_name documents "ExpenseForecast(MonthlySummary)" with
        | none => rfl
        | some dout =>
            rw [hc, he] at h
            rcases h with h | h
            · have hdf : dfNonempty di.full_data = false := by
                have h0 : di.full_data = [] := List.isEmpty_iff.mp h
                simp [dfNonempty, h0]
              simp [hdf]
            · have hdf : dfNonempty dout.full_data = false := by
                have h0 : dout.full_data = [] := List.isEmpty_iff.mp h
                simp [dfNonempty, h0]
              simp [hdf]
  constructor
  · simp [get_scenario_analysis, hcore]
  · simp [get_cash_shortfalls, hcore]

/-- Witness for C10 at the empty document list. -/
theorem scenario_and_shortfalls_empty_witness :
    docMissingOrEmpty [] "CustomerPaymentsForecast(MonthlyForecast)" = true ∧
    get_scenario_analysis [] = ⟨[], []⟩ ∧
    get_cash_shortfalls [] = ⟨[], 0, false⟩ := by
  have h := scenario_and_shortfalls_empty [] (Or.inl rfl)
  exact ⟨rfl, h.1, h.2⟩

/-- Lockstep monotonicity of two running-balance scans: if the per-row
net of the first is pointwise below the second and the seeds are
ordered, every recorded balance is ordered. -/
theorem runBalances_le_of_le (f g : MergedRow → ℚ) :
    ∀ (rows : List MergedRow), (∀ r ∈ rows, f r ≤ g r) →
      ∀ b c : ℚ, b ≤ c →
      List.Forall₂ (fun x y : ℚ => x ≤ y) (runBalances b f rows) (runBalances c g rows)
  | [], _, _, _, _ => List.Forall₂.nil
  | r :: rs, hfg, b, c, hbc => by
      have hhead : b + f r ≤ c + g r :=
        add_le_add hbc (hfg r (List.mem_cons_self r rs))
      exact List.Forall₂.cons hhead
        (runBalances_le_of_le f g rs
          (fun x hx => hfg x (List.mem_cons_of_mem r hx)) _ _ hhead)

/-- C5: whenever every merged row has nonnegative collections and
nonnegative expenses, the three scenario running balances (seeded from
the same starting balance and walking the same sorted rows in lockstep)
satisfy pessimistic ≤ expected ≤ optimistic at every position. -/
theorem get_scenario_analysis_scenario_order (documents : List CSVDocumentDetail)
    (h : ∀ r ∈ mergedRowsOf documents, 0 ≤ r.collections ∧ 0 ≤ r.expenses) :
    List.Forall₂ (fun x y : ℚ => x ≤ y)
      (scenarioSeries documents 2) (scenarioSeries documents 1) ∧
    List.Forall₂ (fun x y : ℚ => x ≤ y)
      (scenarioSeries documents 1) (scenarioSeries documents 0) := by
  unfold mergedRowsOf at h
  cases hsc : scenarioCore documents with
  | none =>
      constructor <;>
      · simp only [scenarioSeries, get_scenario_analysis, hsc, List.map_nil,
          List.getD_nil]
        exact List.Forall₂.nil
  | some rows =>
      rw [hsc] at h
      simp only [Option.getD_some] at h
      have h0 : scenarioSeries documents 0 =
          runBalances (currentOf (find_document_by_name documents
            "BankStatements(SummarybyType)")) optNet rows := by
        simp [scenarioSeries, get_scenario_analysis, hsc]
      have h1 : scenarioSeries documents 1 =
          runBalances (currentOf (find_document_by_name documents
            "BankStatements(SummarybyType)")) expNet rows := by
        simp [scenarioSeries, get_scenario_analysis, hsc]
      have h2 : scenarioSeries documents 2 =
          runBalances (currentOf (find_document_by_name documents
            "BankStatements(SummarybyType)")) pessNet rows := by
        simp [scenarioSeries, get_scenario_analysis, hsc]
      constructor
      · rw [h2, h1]
        refine runBalances_le_of_le pessNet expNet rows ?_ _ _ le_rfl
        intro r hr
        have hc := (h r hr).1
        have he := (h r hr).2
        unfold pessNet expNet
        nlinarith
      · rw [h1, h0]
        refine runBalances_le_of_le expNet optNet rows ?_ _ _ le_rfl
        intro r hr
        have hc := (h r hr).1
        have he := (h r hr).2
        unfold expNet optNet
        nlinarith

set_option maxRecDepth 4000 in
/-- Witness for C5 on the scenario fixture: the nonnegativity
hypothesis holds and both orderings follow. -/
theorem get_scenario_analysis_scenario_order_witness :
    (∀ r ∈ mergedRowsOf scenarioDocs, 0 ≤ r.collections ∧ 0 ≤ r.expenses) ∧
    (List.Forall₂ (fun x y : ℚ => x ≤ y)
      (scenarioSeries scenarioDocs 2) (scenarioSeries scenarioDocs 1) ∧
     List.Forall₂ (fun x y : ℚ => x ≤ y)
      (scenarioSeries scenarioDocs 1) (scenarioSeries scenarioDocs 0)) := by
  have hnn : ∀ r ∈ mergedRowsOf scenarioDocs, 0 ≤ r.collections ∧ 0 ≤ r.expenses := by
    with_unfolding_all decide
  exact ⟨hnn, get_scenario_analysis_scenario_order scenarioDocs hnn⟩

/-- C7: the invoice-statistics active population is exactly the rows
whose literal status is Outstanding or Partial Payment — a literal
Overdue status is never active — with the receivable and at-risk
aggregates computed over that population, and on the four-status
fixture the active count is 2 with total receivables 1500. -/
theorem get_invoices_stats_active_filter (documents : List CSVDocumentDetail)
    (d : CSVDocumentDetail)
    (hfind : find_document_by_name documents "ARRecords" = some d)
    (hrows : d.full_data.isEmpty = false)
    (hstatus : hasCol d.full_data "Status" = true)
    (hdays : hasCol d.full_data "Days Past Due" = true)
    (hbal : hasCol d.full_data "Balance Due" = true) :
    ((get_invoices_stats documents).activeInvoiceCount =
        ((data_to_df d.full_data).filter statusActive).length ∧
      (get_invoices_stats documents).totalReceivables =
        (((data_to_df d.full_data).filter statusActive).map
          (fun r => rowVal r "Balance Due")).sum ∧
      (get_invoices_stats documents).atRiskInvoiceCount =
        (((data_to_df d.full_data).filter statusActive).filter
          (fun r => decide ((0 : ℚ) < rowVal r "Days Past Due"))).length ∧
      (get_invoices_stats documents).totalAtRiskAmount =
        ((((data_to_df d.full_data).filter statusActive).filter
          (fun r => decide ((0 : ℚ) < rowVal r "Days Past Due"))).map
          (fun r => rowVal r "Balance Due")).sum) ∧
    statusActive [("Status", Cell.str "Overdue")] = false ∧
    (get_invoices_stats invoiceStatsDocs).activeInvoiceCount = 2 ∧
    (get_invoices_stats invoiceStatsDocs).totalReceivables = 1500 := by
  have hguard : (!d.full_data.isEmpty && hasCol d.full_data "Status" &&
      hasCol d.full_data "Days Past Due" && hasCol d.full_data "Balance Due") = true := by
    rw [hrows, hstatus, hdays, hbal]
    rfl
  refine ⟨⟨?_, ?_, ?_, ?_⟩, by decide, ?_, ?_⟩
  · simp only [get_invoices_stats, hfind, hguard, if_true]
  · simp only [get_invoices_stats, hfind, hguard, if_true]
  · simp only [get_invoices_stats, hfind, hguard, if_true]
  · simp only [get_invoices_stats, hfind, hguard, if_true]
  · simp +decide [get_invoices_stats, find_document_by_name, normalizeName,
      lowerStr, lowerChar, occursIn, leadsIn, statusActive, data_to_df, colIsObject,
      cleanCell, cellStr, stripDollarComma, getCell, rowVal, toNumeric, parseFloat?,
      parseFloatAux, parseMantissa, takeDigits, digitsToNat, hasCol, invoiceStatsDocs,
      arDocOverdue]
    try norm_num
  · simp +decide [get_invoices_stats, find_document_by_name, normalizeName,
      lowerStr, lowerChar, occursIn, leadsIn, statusActive, data_to_df, colIsObject,
      cleanCell, cellStr, stripDollarComma, getCell, rowVal, toNumeric, parseFloat?,
      parseFloatAux, parseMantissa, takeDigits, digitsToNat, hasCol, invoiceStatsDocs,
      arDocOverdue]
    try norm_num

/-- Witness for C7 on the four-status fixture: the location and column
hypotheses hold and the general active-population equations follow. -/
theorem get_invoices_stats_active_filter_witness :
    find_document_by_name invoiceStatsDocs "ARRecords" = some arDocOverdue ∧
    (get_invoices_stats invoiceStatsDocs).activeInvoiceCount =
      ((data_to_df arDocOverdue.full_data).filter statusActive).length := by
  have hfa : find_document_by_name invoiceStatsDocs "ARRecords" =
      some arDocOverdue := by
    with_unfolding_all decide
  have h := get_invoices_stats_active_filter invoiceStatsDocs arDocOverdue hfa
    (by decide) (by decide) (by decide) (by decide)
  exact ⟨hfa, h.1.1⟩

/-- One step of the pessimistic shortfall walk, in appended form. -/
theorem shortfallWalk_cons (bal : ℚ) (r : MergedRow) (rs : List MergedRow) :
    shortfallWalk bal (r :: rs) =
      (if bal + pessNet r < 0 then
        [⟨r.month, |bal + pessNet r|, priorityOf |bal + pessNet r|,
          bal + pessNet r, r.collections * 0.85, r.expenses * 1.10,
          pessNet r, |bal + pessNet r|⟩]
       else []) ++ shortfallWalk (bal + pessNet r) rs := by
  simp only [shortfallWalk, pessNet]
  by_cases hb : bal + (r.collections * 0.85 - r.expenses * 1.10) < 0
  · simp [hb]
  · simp [hb]

/-- The week/balance/priority projection of the pessimistic shortfall
walk is the pessimistic balance scan filtered at its negative
positions. -/
theorem shortfallWalk_eq_filterMap (rows : List MergedRow) :
    ∀ bal : ℚ,
      (shortfallWalk bal rows).map (fun p => (p.week, p.closingBalance, p.priority)) =
      ((rows.map (fun r => r.month)).zip (runBalances bal pessNet rows)).filterMap
        (fun mb => if mb.2 < 0 then some (mb.1, mb.2, priorityOf (-mb.2)) else none) := by
  induction rows with
  | nil => intro bal; rfl
  | cons r rs ih =>
      intro bal
      rw [shortfallWalk_cons]
      simp only [runBalances, List.map_cons, List.zip_cons_cons, List.filterMap_cons]
      by_cases hb : bal + pessNet r < 0
      · rw [if_pos hb]
        simp only [List.singleton_append, List.map_cons, ih, if_pos hb]
        rw [abs_of_neg hb]
      · rw [if_neg hb]
        simp only [List.nil_append, ih, if_neg hb]

/-- Every emitted shortfall period carries a negative closing balance
and records its absolute value as the shortfall amount. -/
theorem shortfallWalk_shortfall_eq (rows : List MergedRow) :
    ∀ bal : ℚ, ∀ p ∈ shortfallWalk bal rows,
      p.closingBalance < 0 ∧ p.shortfall = -p.closingBalance := by
  induction rows with
  | nil => intro bal p hp; simp [shortfallWalk] at hp
  | cons r rs ih =>
      intro bal p hp
      rw [shortfallWalk_cons] at hp
      rcases List.mem_append.mp hp with h | h
      · by_cases hb : bal + pessNet r < 0
        · rw [if_pos hb] at h
          simp only [List.mem_singleton] at h
          subst h
          exact ⟨hb, abs_of_neg hb⟩
        · rw [if_neg hb] at h
          simp at h
      · exact ih _ p h

/-- C6: the shortfall detector emits one period for exactly the
positions of the pessimistic scenario walk whose running balance is
negative after the update (the walk never stops early), with
shortfallAmount the absolute value of that balance, priority High above
200000, Medium above 100000, Low otherwise; totalShortfall is the sum
of the period amounts and hasShortfalls is true exactly when a period
exists. -/
theorem get_cash_shortfalls_spec (documents : List CSVDocumentDetail) :
    (get_cash_shortfalls documents).periods.map
        (fun p => (p.week, p.closingBalance, p.priority)) =
      (((get_scenario_analysis documents).labels).zip
          (scenarioSeries documents 2)).filterMap
        (fun mb => if mb.2 < 0 then
            some (mb.1, mb.2,
              if 200000 < -mb.2 then "High"
              else if 100000 < -mb.2 then "Medium" else "Low")
          else none) ∧
    (get_cash_shortfalls documents).periods.map (fun p => p.shortfall) =
      (get_cash_shortfalls documents).periods.map (fun p => -p.closingBalance) ∧
    (get_cash_shortfalls documents).totalShortfall =
      ((get_cash_shortfalls documents).periods.map (fun p => p.shortfall)).sum ∧
    (get_cash_shortfalls documents).hasShortfalls =
      !(get_cash_shortfalls documents).periods.isEmpty := by
  refine ⟨?_, ?_, rfl, rfl⟩
  · cases hsc : scenarioCore documents with
    | none =>
        simp [get_cash_shortfalls, get_scenario_analysis, scenarioSeries, hsc]
    | some rows =>
        have hper : (get_cash_shortfalls documents).periods =
            shortfallWalk (currentOf (find_document_by_name documents
              "BankStatements(SummarybyType)")) rows := by
          simp [get_cash_shortfalls, hsc]
        have hlab : (get_scenario_analysis documents).labels =
            rows.map (fun r => r.month) := by
          simp [get_scenario_analysis, hsc]
        have hs2 : scenarioSeries documents 2 =
            runBalances (currentOf (find_document_by_name documents
              "BankStatements(SummarybyType)")) pessNet rows := by
          simp [scenarioSeries, get_scenario_analysis, hsc]
        rw [hper, hlab, hs2, shortfallWalk_eq_filterMap]
        rfl
  · cases hsc : scenarioCore documents with
    | none => simp [get_cash_shortfalls, hsc]
    | some rows =>
        have hper : (get_cash_shortfalls documents).periods =
            shortfallWalk (currentOf (find_document_by_name documents
              "BankStatements(SummarybyType)")) rows := by
          simp [get_cash_shortfalls, hsc]
        rw [hper]
        exact List.map_congr_left (fun p hp =>
          (shortfallWalk_shortfall_eq rows _ p hp).2)

/-- Under distinct keys, filtering a key-value list at one key keeps
exactly one pair when the key occurs and none otherwise. -/
theorem length_filter_key_nodup (m : String) :
    ∀ (b : List (String × ℚ)), (b.map Prod.fst).Nodup →
      (b.filter (fun q => q.1 == m)).length =
        if m ∈ b.map Prod.fst then 1 else 0
  | [], _ => by simp
  | q :: b, hnd => by
      rw [List.map_cons, List.nodup_cons] at hnd
      obtain ⟨hq, hnd⟩ := hnd
      by_cases hm : q.1 = m
      · have h0 : m ∉ b.map Prod.fst := fun hmem => hq (hm ▸ hmem)
        rw [List.filter_cons_of_pos (by simp [hm]), List.length_cons,
          length_filter_key_nodup m b hnd, if_neg h0, if_pos]
        simp [List.map_cons, List.mem_cons, hm]
      · have hm2 : ¬ m = q.1 := fun h => hm h.symm
        rw [List.filter_cons_of_neg (by simp [hm]),
          length_filter_key_nodup m b hnd]
        by_cases hmem : m ∈ b.map Prod.fst <;>
          simp [List.mem_cons, hm2, hmem]

/-- Key lookup of a present pair under distinct keys. -/
theorem lookup_eq_some_of_mem (m : String) (v : ℚ) :
    ∀ (l : List (String × ℚ)), (l.map Prod.fst).Nodup → (m, v) ∈ l →
      l.lookup m = some v
  | [], _, hmem => by cases hmem
  | (k, w) :: l, hnd, hmem => by
      rw [List.map_cons, List.nodup_cons] at hnd
      obtain ⟨hk, hnd⟩ := hnd
      rcases List.mem_cons.mp hmem with h | h
      · injection h with h1 h2
        subst h1
        subst h2
        simp [List.lookup_cons]
      · have hne : ¬ m = k := by
          intro he
          subst he
          exact hk (List.mem_map.mpr ⟨(m, v), h, rfl⟩)
        have hbeq : (m == k) = false := by simp [hne]
        simp only [List.lookup_cons, hbeq]
        exact lookup_eq_some_of_mem m v l hnd h

/-- Key lookup of an absent key. -/
theorem lookup_eq_none_of_not_mem (m : String) :
    ∀ (l : List (String × ℚ)), m ∉ l.map Prod.fst → l.lookup m = none
  | [], _ => rfl
  | (k, w) :: l, h => by
      rw [List.map_cons, List.mem_cons] at h
      push_neg at h
      have hbeq : (m == k) = false := by simp [h.1]
      simp only [List.lookup_cons, hbeq]
      exact lookup_eq_none_of_not_mem m l h.2

/-- Count of a month among the rows emitted for one left row of the
outer join. -/
theorem countP_emit (m : String) (b : List (String × ℚ))
    (hb : (b.map Prod.fst).Nodup) (p : String × ℚ) :
    (((if (b.filter (fun q => q.1 == p.1)).isEmpty then
        [(⟨p.1, p.2, 0⟩ : MergedRow)]
      else (b.filter (fun q => q.1 == p.1)).map (fun q => ⟨p.1, p.2, q.2⟩))).countP
        (fun r => r.month == m)) =
      if p.1 = m then 1 else 0 := by
  by_cases he : (b.filter (fun q => q.1 == p.1)).isEmpty
  · rw [if_pos he]
    by_cases hpm : p.1 = m <;> simp [List.countP_cons, hpm]
  · rw [if_neg he, List.countP_map]
    by_cases hpm : p.1 = m
    · rw [if_pos hpm]
      have hne2 : b.filter (fun q => q.1 == p.1) ≠ [] := by
        intro hnil
        rw [hnil] at he
        exact he rfl
      have hmem : p.1 ∈ b.map Prod.fst := by
        obtain ⟨q, hq⟩ := List.exists_mem_of_ne_nil _ hne2
        obtain ⟨hqb, hqk⟩ := List.mem_filter.mp hq
        exact List.mem_map.mpr ⟨q, hqb, by simpa using hqk⟩
      have hconst : List.countP
          ((fun r : MergedRow => r.month == m) ∘ fun q => ⟨p.1, p.2, q.2⟩)
          (b.filter (fun q => q.1 == p.1)) =
          List.countP (fun _ => true) (b.filter (fun q => q.1 == p.1)) := by
        apply List.countP_congr
        intro q hq
        simp [Function.comp, hpm]
      rw [hconst, List.countP_true, length_filter_key_nodup p.1 b hb, if_pos hmem]
    · rw [if_neg hpm]
      apply List.countP_eq_zero.mpr
      intro q hq
      simp [Function.comp, hpm]

/-- Count of a month in the left part of the outer join, under distinct
keys on both sides. -/
theorem countP_mergeLeft (m : String) (b : List (String × ℚ))
    (hb : (b.map Prod.fst).Nodup) :
    ∀ (a : List (String × ℚ)), (a.map Prod.fst).Nodup →
      (mergeLeft b a).countP (fun r => r.month == m) =
        if m ∈ a.map Prod.fst then 1 else 0
  | [], _ => by simp [mergeLeft]
  | p :: as, hnd => by
      rw [List.map_cons, List.nodup_cons] at hnd
      obtain ⟨hp, hnd⟩ := hnd
      rw [mergeLeft, List.countP_append, countP_mergeLeft m b hb as hnd]
      have hem := countP_emit m b hb p
      by_cases hpm : p.1 = m
      · have h0 : m ∉ as.map Prod.fst := fun hmem => hp (hpm ▸ hmem)
        rw [if_neg h0]
        simp only [hem, if_pos hpm]
        simp [List.map_cons, List.mem_cons, hpm]
      · have hm2 : ¬ m = p.1 := fun h => hpm h.symm
        simp only [hem, if_neg hpm]
        by_cases hmem : m ∈ as.map Prod.fst <;>
          simp [List.mem_cons, hm2, hmem]

/-- Count of a month among the zero-filled right-only rows of the outer
join. -/
theorem countP_rightOnly (m : String) (a b : List (String × ℚ))
    (hb : (b.map Prod.fst).Nodup) :
    ((b.filter (fun q => a.all (fun p => !(p.1 == q.1)))).map
      (fun q => (⟨q.1, 0, q.2⟩ : MergedRow))).countP (fun r => r.month == m) =
    if m ∈ b.map Prod.fst ∧ m ∉ a.map Prod.fst then 1 else 0 := by
  rw [List.countP_map, List.countP_filter]
  by_cases hma : m ∈ a.map Prod.fst
  · rw [if_neg (by intro h; exact h.2 hma)]
    apply List.countP_eq_zero.mpr
    intro q hq
    obtain ⟨p, hpa, hpm⟩ := List.mem_map.mp hma
    intro hcontra
    simp only [Function.comp, Bool.and_eq_true, beq_iff_eq] at hcontra
    have hall := hcontra.2
    have := List.all_eq_true.mp hall p hpa
    rw [hcontra.1] at this
    simp [hpm] at this
  · have hcong : List.countP
        (fun q : String × ℚ =>
          ((fun r : MergedRow => r.month == m) ∘ fun q => (⟨q.1, 0, q.2⟩ : MergedRow)) q
            && a.all (fun p => !(p.1 == q.1))) b =
        List.countP (fun q => q.1 == m) b := by
      apply List.countP_congr
      intro q hq
      simp only [Function.comp, Bool.and_eq_true, beq_iff_eq]
      by_cases hqm : q.1 = m
      · subst hqm
        have hall : a.all (fun p => !(p.1 == q.1)) = true := by
          apply List.all_eq_true.mpr
          intro p hpa
          have : ¬ p.1 = q.1 := by
            intro he
            exact hma (List.mem_map.mpr ⟨p, hpa, he⟩)
          simp [this]
        simp [hall]
      · simp [hqm]
    rw [hcong, List.countP_eq_length_filter, length_filter_key_nodup m b hb]
    by_cases hmb : m ∈ b.map Prod.fst
    · rw [if_pos hmb, if_pos ⟨hmb, hma⟩]
    · rw [if_neg hmb, if_neg (by intro h; exact hmb h.1)]

/-- Every row of the left part of the outer join comes from a left pair
together with either a zero fill or a matching right pair. -/
theorem mergeLeft_mem (b : List (String × ℚ)) :
    ∀ (a : List (String × ℚ)), ∀ r ∈ mergeLeft b a,
      ∃ p ∈ a, r.month = p.1 ∧ r.collections = p.2 ∧
        ((b.filter (fun q => q.1 == p.1)) = [] ∧ r.expenses = 0 ∨
         ∃ q ∈ b, q.1 = p.1 ∧ r.expenses = q.2)
  | [], r, hr => by simp [mergeLeft] at hr
  | p :: as, r, hr => by
      rw [mergeLeft] at hr
      rcases List.mem_append.mp hr with h | h
      · refine ⟨p, List.mem_cons_self p as, ?_⟩
        by_cases he : (b.filter (fun q => q.1 == p.1)).isEmpty
        · rw [if_pos he] at h
          rw [List.mem_singleton] at h
          subst h
          exact ⟨rfl, rfl, Or.inl ⟨List.isEmpty_iff.mp he, rfl⟩⟩
        · rw [if_neg he] at h
          obtain ⟨q, hq, rfl⟩ := List.mem_map.mp h
          obtain ⟨hqb, hqk⟩ := List.mem_filter.mp hq
          exact ⟨rfl, rfl, Or.inr ⟨q, hqb, by simpa using hqk, rfl⟩⟩
      · obtain ⟨p2, hp2, hrest⟩ := mergeLeft_mem b as r h
        exact ⟨p2, List.mem_cons_of_mem p hp2, hrest⟩

/-- Values of every merged row under distinct keys: the collections and
expenses columns are the looked-up values, zero-filled when the label
is missing from one side. -/
theorem mergeOuter_mem_values (a b : List (String × ℚ))
    (ha : (a.map Prod.fst).Nodup) (hb : (b.map Prod.fst).Nodup) :
    ∀ r ∈ mergeOuter a b,
      r.collections = (a.lookup r.month).getD 0 ∧
      r.expenses = (b.lookup r.month).getD 0 := by
  intro r hr
  rcases List.mem_append.mp hr with h | h
  · obtain ⟨p, hpa, hmonth, hcol, hrest⟩ := mergeLeft_mem b a r h
    constructor
    · rw [hmonth, hcol,
        lookup_eq_some_of_mem p.1 p.2 a ha (by simpa using hpa)]
      rfl
    · rcases hrest with ⟨hnil, hexp⟩ | ⟨q, hqb, hqk, hexp⟩
      · have hnb : p.1 ∉ b.map Prod.fst := by
          intro hmem
          obtain ⟨q, hqb, hqk⟩ := List.mem_map.mp hmem
          have : q ∈ b.filter (fun q2 => q2.1 == p.1) :=
            List.mem_filter.mpr ⟨hqb, by simp [hqk]⟩
          rw [hnil] at this
          cases this
        rw [hmonth, hexp, lookup_eq_none_of_not_mem p.1 b hnb]
        rfl
      · rw [hmonth, hexp,
          lookup_eq_some_of_mem p.1 q.2 b hb (by rw [← hqk]; simpa using hqb)]
        rfl
  · obtain ⟨q, hq, rfl⟩ := List.mem_map.mp h
    obtain ⟨hqb, hall⟩ := List.mem_filter.mp hq
    constructor
    · show (0 : ℚ) = ((a.lookup q.1).getD 0)
      have hna : q.1 ∉ a.map Prod.fst := by
        intro hmem
        obtain ⟨p, hpa, hpk⟩ := List.mem_map.mp hmem
        have := List.all_eq_true.mp hall p hpa
        simp [hpk] at this
      rw [lookup_eq_none_of_not_mem q.1 a hna]
      rfl
    · show q.2 = ((b.lookup q.1).getD 0)
      rw [lookup_eq_some_of_mem q.1 q.2 b hb (by simpa using hqb)]
      rfl

set_option maxRecDepth 4000 in
/-- C8 counterexample: a month label duplicated within the collections
series appears twice, not once, in the merged output that the scenario
analysis labels expose. -/
theorem merge_duplicate_label_counterexample :
    ((get_scenario_analysis dupMonthDocs).labels.count "Jan 2025") = 2 ∧
    ¬ ((get_scenario_analysis dupMonthDocs).labels.count "Jan 2025") = 1 := by
  have h : (get_scenario_analysis dupMonthDocs).labels = ["Jan 2025", "Jan 2025"] := by
    with_unfolding_all decide
  rw [h]
  exact ⟨by decide, by decide⟩

/-- C8 amended: when each input series has distinct labels, every label
present in either input appears exactly once in the merged output, the
merged numeric values are the looked-up inputs zero-filled (never null,
by construction of the ℚ-valued columns) for labels missing from one
side, and the output is sorted by the parsed month key. -/
theorem mergeSorted_nodup_spec (a b : List (String × ℚ))
    (ha : (a.map Prod.fst).Nodup) (hb : (b.map Prod.fst).Nodup) :
    (∀ m : String, (mergeSorted a b).countP (fun r => r.month == m) =
      if m ∈ a.map Prod.fst ∨ m ∈ b.map Prod.fst then 1 else 0) ∧
    List.Sorted rowLe (mergeSorted a b) ∧
    (∀ r ∈ mergeSorted a b,
      r.collections = (a.lookup r.month).getD 0 ∧
      r.expenses = (b.lookup r.month).getD 0) := by
  refine ⟨?_, List.sorted_insertionSort rowLe (mergeOuter a b), ?_⟩
  · intro m
    unfold mergeSorted
    rw [(List.perm_insertionSort rowLe (mergeOuter a b)).countP_eq]
    rw [mergeOuter, List.countP_append, countP_mergeLeft m b hb a ha,
      countP_rightOnly m a b hb]
    by_cases hma : m ∈ a.map Prod.fst
    · rw [if_pos hma, if_neg (by intro h; exact h.2 hma), if_pos (Or.inl hma)]
    · by_cases hmb : m ∈ b.map Prod.fst
      · rw [if_neg hma, if_pos ⟨hmb, hma⟩, if_pos (Or.inr hmb)]
      · rw [if_neg hma, if_neg (by intro h; exact hmb h.1),
          if_neg (by intro h; rcases h with h | h; exact hma h; exact hmb h)]
  · intro r hr
    exact mergeOuter_mem_values a b ha hb r
      ((List.perm_insertionSort rowLe (mergeOuter a b)).mem_iff.mp hr)

set_option maxRecDepth 4000 in
/-- Witness for C8 amended on two small distinct-label series. -/
theorem mergeSorted_nodup_spec_witness :
    (([("Feb 2025", (5 : ℚ)), ("Jan 2025", 3)].map Prod.fst).Nodup) ∧
    (([("Jan 2025", (7 : ℚ))].map Prod.fst).Nodup) ∧
    (mergeSorted [("Feb 2025", (5 : ℚ)), ("Jan 2025", 3)]
      [("Jan 2025", (7 : ℚ))]).countP (fun r => r.month == "Feb 2025") = 1 := by
  have h := mergeSorted_nodup_spec [("Feb 2025", (5 : ℚ)), ("Jan 2025", 3)]
    [("Jan 2025", (7 : ℚ))] (by decide) (by decide)
  refine ⟨by decide, by decide, ?_⟩
  rw [h.1 "Feb 2025"]
  decide

end PandasAnalyticsService
